import Mathlib

/-!
# certgen_accessor: command accessor of fty-certificate-generator

Shallow embedding of `src/certgen_accessor.cc` (namespace `certgen`).

* `fty::Payload` is `std::vector<std::string>`: a list of strings.
* A C++ call either returns, or an exception leaves it, or it runs into
  undefined behaviour (`operator[]` past the end of a vector).  The three cases
  are the constructors of `Outcome`.
* The injected `fty::SyncClient` is an interface of an external library.  It is
  a parameter: a step function on an arbitrary state `σ` (the client, the bus
  and the remote service behind it) which either returns the reply frame or
  throws.
* `fty::CsrX509` belongs to an external library as well; its constructor from a
  PEM string is a parameter that returns the value or throws.
-/

namespace certgen

/-- The type `fty::Payload`, a `std::vector<std::string>`. -/
abbrev Payload := List String

/-- An exception object in flight.  `std::runtime_error` and `std::out_of_range`
are the two classes the accessor itself can raise (`throw std::runtime_error`,
`vector::at`); `other` is an exception of any other class, named by the class.
The field `what` is the text the handler reads through `what()`. -/
inductive Exn where
  | runtime_error (what : String)
  | out_of_range (what : String)
  | other (className : String) (what : String)
  deriving DecidableEq, Repr

/-- How a C++ call ends: it returns a value, an exception leaves it, or it has
undefined behaviour. -/
inductive Outcome (α : Type) where
  | value (a : α)
  | thrown (e : Exn)
  | undefinedBehaviour
  deriving DecidableEq, Repr

/-- The text read through `c_str()` of a `std::string`, which is how
`std::runtime_error(msg).what()` hands out its message: a C string, ending at
the first NUL character of `msg`. -/
def c_str (msg : String) : String :=
  String.mk (msg.data.takeWhile (fun ch => ch != '\x00'))

/-- Unchecked access `v[i]` of `std::vector`: undefined behaviour when `i` is
not below `v.size()`. -/
def vectorIndex (v : Payload) (i : Nat) : Outcome String :=
  match v.get? i with
  | some x => Outcome.value x
  | none => Outcome.undefinedBehaviour

/-- Checked access `v.at(i)` of `std::vector`: throws `std::out_of_range` when
`i` is not below `v.size()` (the text of that exception is the library's own and
plays no part below). -/
def vectorAt (v : Payload) (i : Nat) : Outcome String :=
  match v.get? i with
  | some x => Outcome.value x
  | none => Outcome.thrown (Exn.out_of_range "vector::_M_range_check")

/-- The interface `fty::SyncClient`: one blocking operation, which returns the
reply frame or throws, and moves the state of the world behind it. -/
structure SyncClient (σ : Type) where
  syncRequestWithReply : σ → Payload → Except Exn Payload × σ

/-- Modelled from the spec: the command tokens are declared in
`certgen_accessor.h`, which is not among the sources; the spec gives the wire
token of each (section 6, command vocabulary). -/
def GENERATE_SELFSIGNED_CERTIFICATE : String := "GENERATE_SELFSIGNED_CERTIFICATE"

/-- Modelled from the spec: wire token of the CSR command, declared in the
missing header `certgen_accessor.h`. -/
def GENERATE_CSR : String := "GENERATE_CSR"

/-- Modelled from the spec: wire token of the import command, declared in the
missing header `certgen_accessor.h`. -/
def IMPORT_CERTIFICATE : String := "IMPORT_CERTIFICATE"

/-- The class `CertGenAccessor`: it holds the reference to the request client
and nothing else. -/
structure CertGenAccessor (σ : Type) where
  m_requestClient : SyncClient σ

/-- The method `CertGenAccessor::sendCommand` (lines 58-83).

`payload = {command}` followed by the copy of `data`; one call of
`syncRequestWithReply`; then `recMessage[0] == "ERROR"` is tested with the
unchecked `operator[]`, and in the error branch `size() == 2` selects between
`std::runtime_error(recMessage.at(1))`, whose message the caller reads through
`what()`, and the literal `"Unknown error"`. -/
def CertGenAccessor.sendCommand {σ : Type} (self : CertGenAccessor σ) (s : σ)
    (command : String) (data : Payload) : Outcome Payload × σ :=
  let payload : Payload := [command] ++ data
  match self.m_requestClient.syncRequestWithReply s payload with
  | (Except.error e, s1) => (Outcome.thrown e, s1)
  | (Except.ok recMessage, s1) =>
    match vectorIndex recMessage 0 with
    | Outcome.undefinedBehaviour => (Outcome.undefinedBehaviour, s1)
    | Outcome.thrown e => (Outcome.thrown e, s1)
    | Outcome.value first =>
      if first = "ERROR" then
        if recMessage.length = 2 then
          match vectorAt recMessage 1 with
          | Outcome.undefinedBehaviour => (Outcome.undefinedBehaviour, s1)
          | Outcome.thrown e => (Outcome.thrown e, s1)
          | Outcome.value msg => (Outcome.thrown (Exn.runtime_error (c_str msg)), s1)
        else
          (Outcome.thrown (Exn.runtime_error "Unknown error"), s1)
      else
        (Outcome.value recMessage, s1)

/-- The method `CertGenAccessor::generateSelfCertificateReq` (lines 35-40): the
payload returned by `sendCommand` is dropped. -/
def CertGenAccessor.generateSelfCertificateReq {σ : Type} (self : CertGenAccessor σ)
    (s : σ) (serviceName : String) : Outcome Unit × σ :=
  match self.sendCommand s GENERATE_SELFSIGNED_CERTIFICATE [serviceName] with
  | (Outcome.value _, s1) => (Outcome.value (), s1)
  | (Outcome.thrown e, s1) => (Outcome.thrown e, s1)
  | (Outcome.undefinedBehaviour, s1) => (Outcome.undefinedBehaviour, s1)

/-- The method `CertGenAccessor::generateCsr` (lines 42-47): the result is
`fty::CsrX509(payload[0])`.  `CsrX509` is the constructor of the external class,
which returns the value or throws. -/
def CertGenAccessor.generateCsr {σ γ : Type} (self : CertGenAccessor σ)
    (CsrX509 : String → Except Exn γ) (s : σ) (serviceName : String) : Outcome γ × σ :=
  match self.sendCommand s GENERATE_CSR [serviceName] with
  | (Outcome.undefinedBehaviour, s1) => (Outcome.undefinedBehaviour, s1)
  | (Outcome.thrown e, s1) => (Outcome.thrown e, s1)
  | (Outcome.value payload, s1) =>
    match vectorIndex payload 0 with
    | Outcome.undefinedBehaviour => (Outcome.undefinedBehaviour, s1)
    | Outcome.thrown e => (Outcome.thrown e, s1)
    | Outcome.value pem =>
      match CsrX509 pem with
      | Except.ok csr => (Outcome.value csr, s1)
      | Except.error e => (Outcome.thrown e, s1)

/-- The method `CertGenAccessor::importCertificate` (lines 49-55): the payload
returned by `sendCommand` is dropped. -/
def CertGenAccessor.importCertificate {σ : Type} (self : CertGenAccessor σ)
    (s : σ) (serviceName : String) (cert : String) : Outcome Unit × σ :=
  match self.sendCommand s IMPORT_CERTIFICATE [serviceName, cert] with
  | (Outcome.value _, s1) => (Outcome.value (), s1)
  | (Outcome.thrown e, s1) => (Outcome.thrown e, s1)
  | (Outcome.undefinedBehaviour, s1) => (Outcome.undefinedBehaviour, s1)

/-! ## Transports used to observe the accessor -/

/-- A client that does what `c` does and keeps, next to the state of `c`, the
list of the frames it has been handed, oldest first. -/
def SyncClient.recording {σ : Type} (c : SyncClient σ) : SyncClient (σ × List Payload) where
  syncRequestWithReply := fun st frame =>
    ((c.syncRequestWithReply st.1 frame).1,
     ((c.syncRequestWithReply st.1 frame).2, st.2 ++ [frame]))

/-- A client that does what `c` does and counts the calls of
`syncRequestWithReply`. -/
def SyncClient.counting {σ : Type} (c : SyncClient σ) : SyncClient (σ × Nat) where
  syncRequestWithReply := fun st frame =>
    ((c.syncRequestWithReply st.1 frame).1,
     ((c.syncRequestWithReply st.1 frame).2, st.2 + 1))

/-- A stateless stub client: every request ends the same way, with the reply
frame `r` or with the exception `r`. -/
def stubClient (r : Except Exn Payload) : SyncClient Unit where
  syncRequestWithReply := fun _ _ => (r, ())

theorem c_str_of_no_nul (msg : String) (h : '\x00' ∉ msg.data) : c_str msg = msg := by
  have ht : msg.data.takeWhile (fun ch => ch != '\x00') = msg.data := by
    rw [List.takeWhile_eq_self_iff]
    intro ch hch
    simp only [bne_iff_ne, ne_eq]
    intro heq
    exact h (heq ▸ hch)
  unfold c_str
  rw [ht]

theorem sendCommand_state {σ : Type} (self : CertGenAccessor σ) (s : σ)
    (command : String) (data : Payload) :
    (self.sendCommand s command data).2
      = (self.m_requestClient.syncRequestWithReply s (command :: data)).2 := by
  unfold CertGenAccessor.sendCommand
  simp only [List.singleton_append]
  split
  · next e s1 h => simp [h]
  · next recMessage s1 h =>
      simp only [h]
      split
      · rfl
      · rfl
      · split
        · split
          · split <;> rfl
          · rfl
        · rfl

theorem sendCommand_of_throw {σ : Type} (self : CertGenAccessor σ) (s s1 : σ)
    (command : String) (data : Payload) (e : Exn)
    (h : self.m_requestClient.syncRequestWithReply s (command :: data) = (Except.error e, s1)) :
    self.sendCommand s command data = (Outcome.thrown e, s1) := by
  simp [CertGenAccessor.sendCommand, h]

theorem sendCommand_of_sentinel_two {σ : Type} (self : CertGenAccessor σ) (s s1 : σ)
    (command : String) (data : Payload) (m : String)
    (h : self.m_requestClient.syncRequestWithReply s (command :: data)
          = (Except.ok ["ERROR", m], s1)) :
    self.sendCommand s command data
      = (Outcome.thrown (Exn.runtime_error (c_str m)), s1) := by
  simp [CertGenAccessor.sendCommand, h, vectorIndex, vectorAt]

theorem sendCommand_of_sentinel_other {σ : Type} (self : CertGenAccessor σ) (s s1 : σ)
    (command : String) (data : Payload) (rest : Payload) (hlen : rest.length ≠ 1)
    (h : self.m_requestClient.syncRequestWithReply s (command :: data)
          = (Except.ok ("ERROR" :: rest), s1)) :
    self.sendCommand s command data
      = (Outcome.thrown (Exn.runtime_error "Unknown error"), s1) := by
  simp [CertGenAccessor.sendCommand, h, vectorIndex, hlen]

theorem sendCommand_of_payload {σ : Type} (self : CertGenAccessor σ) (s s1 : σ)
    (command : String) (data : Payload) (r0 : String) (rest : Payload) (hr0 : r0 ≠ "ERROR")
    (h : self.m_requestClient.syncRequestWithReply s (command :: data)
          = (Except.ok (r0 :: rest), s1)) :
    self.sendCommand s command data = (Outcome.value (r0 :: rest), s1) := by
  simp [CertGenAccessor.sendCommand, h, vectorIndex, hr0]

theorem generateSelfCertificateReq_state {σ : Type} (self : CertGenAccessor σ) (s : σ)
    (serviceName : String) :
    (self.generateSelfCertificateReq s serviceName).2
      = (self.m_requestClient.syncRequestWithReply s
          [GENERATE_SELFSIGNED_CERTIFICATE, serviceName]).2 := by
  rw [← sendCommand_state]
  unfold CertGenAccessor.generateSelfCertificateReq
  split <;> simp [*]

theorem generateCsr_state {σ γ : Type} (self : CertGenAccessor σ)
    (CsrX509 : String → Except Exn γ) (s : σ) (serviceName : String) :
    (self.generateCsr CsrX509 s serviceName).2
      = (self.m_requestClient.syncRequestWithReply s [GENERATE_CSR, serviceName]).2 := by
  rw [← sendCommand_state]
  unfold CertGenAccessor.generateCsr
  split
  · simp [*]
  · simp [*]
  · simp only [*]
    split
    · rfl
    · rfl
    · split <;> rfl

theorem importCertificate_state {σ : Type} (self : CertGenAccessor σ) (s : σ)
    (serviceName cert : String) :
    (self.importCertificate s serviceName cert).2
      = (self.m_requestClient.syncRequestWithReply s
          [IMPORT_CERTIFICATE, serviceName, cert]).2 := by
  rw [← sendCommand_state]
  unfold CertGenAccessor.importCertificate
  split <;> simp [*]

theorem sendCommand_of_sentinel {σ : Type} (self : CertGenAccessor σ) (s s1 : σ)
    (command : String) (data : Payload) (rest : Payload)
    (h : self.m_requestClient.syncRequestWithReply s (command :: data)
          = (Except.ok ("ERROR" :: rest), s1)) :
    ∃ m, self.sendCommand s command data = (Outcome.thrown (Exn.runtime_error m), s1) := by
  by_cases hlen : rest.length = 1
  · obtain ⟨m, rfl⟩ := List.length_eq_one.mp hlen
    exact ⟨c_str m, sendCommand_of_sentinel_two self s s1 command data m h⟩
  · exact ⟨"Unknown error", sendCommand_of_sentinel_other self s s1 command data rest hlen h⟩

/-! ## The claims -/

/-- C1: the frame handed to the transport is the command token followed by the
arguments in declaration order and nothing else.  Whatever the client `c` does,
after one call the record of frames it was handed has grown by exactly
`command :: data` for `sendCommand` (a frame of `1 + |data|` fields), by
`[GENERATE_SELFSIGNED_CERTIFICATE, name]`, `[GENERATE_CSR, name]` and
`[IMPORT_CERTIFICATE, name, cert]` for the three operations; and
`importCertificate "svc" "PEMDATA"` transmits `["IMPORT_CERTIFICATE", "svc", "PEMDATA"]`. -/
theorem frame_is_command_then_arguments {σ γ : Type} (c : SyncClient σ) (s : σ)
    (log : List Payload) (command : String) (data : Payload)
    (serviceName cert : String) (CsrX509 : String → Except Exn γ) :
    ((CertGenAccessor.mk c.recording).sendCommand (s, log) command data).2.2
        = log ++ [command :: data]
    ∧ (command :: data).length = 1 + data.length
    ∧ ((CertGenAccessor.mk c.recording).generateSelfCertificateReq (s, log) serviceName).2.2
        = log ++ [[GENERATE_SELFSIGNED_CERTIFICATE, serviceName]]
    ∧ ((CertGenAccessor.mk c.recording).generateCsr CsrX509 (s, log) serviceName).2.2
        = log ++ [[GENERATE_CSR, serviceName]]
    ∧ ((CertGenAccessor.mk c.recording).importCertificate (s, log) serviceName cert).2.2
        = log ++ [[IMPORT_CERTIFICATE, serviceName, cert]]
    ∧ ((CertGenAccessor.mk c.recording).importCertificate (s, []) "svc" "PEMDATA").2.2
        = [["IMPORT_CERTIFICATE", "svc", "PEMDATA"]] := by
  refine ⟨?_, ?_, ?_, ?_, ?_, ?_⟩
  · rw [sendCommand_state]; rfl
  · simp [Nat.add_comm]
  · rw [generateSelfCertificateReq_state]; rfl
  · rw [generateCsr_state]; rfl
  · rw [importCertificate_state]; rfl
  · rw [importCertificate_state]; rfl

/-- C10: every call of `generateSelfCertificateReq`, `generateCsr` or
`importCertificate` invokes `syncRequestWithReply` exactly once, whatever the
client does (reply, error-sentinel reply or exception): the call counter of the
client goes from `n` to `n + 1`. -/
theorem one_round_trip_per_call {σ γ : Type} (c : SyncClient σ) (s : σ) (n : Nat)
    (serviceName cert : String) (CsrX509 : String → Except Exn γ) :
    ((CertGenAccessor.mk c.counting).generateSelfCertificateReq (s, n) serviceName).2.2 = n + 1
    ∧ ((CertGenAccessor.mk c.counting).generateCsr CsrX509 (s, n) serviceName).2.2 = n + 1
    ∧ ((CertGenAccessor.mk c.counting).importCertificate (s, n) serviceName cert).2.2
        = n + 1 := by
  refine ⟨?_, ?_, ?_⟩
  · rw [generateSelfCertificateReq_state]; rfl
  · rw [generateCsr_state]; rfl
  · rw [importCertificate_state]; rfl

/-- C2, as stated, fails: for the reply `["ERROR", "a\x00b"]` the error raised
reads `"a"` through `what()`, not the second field `"a\x00b"`. -/
theorem error_message_cut_at_nul :
    (CertGenAccessor.mk (stubClient (Except.ok ["ERROR", "a\x00b"]))).sendCommand ()
        "GENERATE_CSR" ["svc"]
      = (Outcome.thrown (Exn.runtime_error "a"), ())
    ∧ (CertGenAccessor.mk (stubClient (Except.ok ["ERROR", "a\x00b"]))).sendCommand ()
        "GENERATE_CSR" ["svc"]
      ≠ (Outcome.thrown (Exn.runtime_error "a\x00b"), ()) := by
  constructor <;> decide

/-- C2, amended: when the transport replies with the two-field frame
`["ERROR", m]`, `sendCommand` ends with a `std::runtime_error` whose message, as
read through `what()`, is `m` up to its first NUL character, and so does each of
the three operations when that frame answers its request; for every `m` without
a NUL character that message is exactly `m`. -/
theorem error_reply_message_is_c_string {σ γ : Type} (self : CertGenAccessor σ) (s s1 : σ)
    (command : String) (data : Payload) (m : String) (CsrX509 : String → Except Exn γ)
    (h : self.m_requestClient.syncRequestWithReply s (command :: data)
          = (Except.ok ["ERROR", m], s1)) :
    self.sendCommand s command data = (Outcome.thrown (Exn.runtime_error (c_str m)), s1)
    ∧ (∀ name, command :: data = [GENERATE_SELFSIGNED_CERTIFICATE, name] →
        self.generateSelfCertificateReq s name
          = (Outcome.thrown (Exn.runtime_error (c_str m)), s1))
    ∧ (∀ name, command :: data = [GENERATE_CSR, name] →
        self.generateCsr CsrX509 s name = (Outcome.thrown (Exn.runtime_error (c_str m)), s1))
    ∧ (∀ name cert, command :: data = [IMPORT_CERTIFICATE, name, cert] →
        self.importCertificate s name cert
          = (Outcome.thrown (Exn.runtime_error (c_str m)), s1))
    ∧ ('\x00' ∉ m.data → c_str m = m) := by
  refine ⟨sendCommand_of_sentinel_two self s s1 command data m h, ?_, ?_, ?_,
    c_str_of_no_nul m⟩
  · intro name hf
    rw [hf] at h
    simp [CertGenAccessor.generateSelfCertificateReq, sendCommand_of_sentinel_two self s s1 _ _ m h]
  · intro name hf
    rw [hf] at h
    simp [CertGenAccessor.generateCsr, sendCommand_of_sentinel_two self s s1 _ _ m h]
  · intro name cert hf
    rw [hf] at h
    simp [CertGenAccessor.importCertificate, sendCommand_of_sentinel_two self s s1 _ _ m h]

/-- Witness of the amended C2: the reply `["ERROR", "bad service"]` to a CSR
request. -/
theorem error_reply_message_is_c_string_witness :
    (CertGenAccessor.mk (stubClient (Except.ok ["ERROR", "bad service"]))).sendCommand ()
        "GENERATE_CSR" ["svc"]
      = (Outcome.thrown (Exn.runtime_error (c_str "bad service")), ())
    ∧ (CertGenAccessor.mk (stubClient (Except.ok ["ERROR", "bad service"]))).generateCsr
        (fun pem => Except.ok pem) () "svc"
        = (Outcome.thrown (Exn.runtime_error (c_str "bad service")), ())
    ∧ c_str "bad service" = "bad service" :=
  have h := error_reply_message_is_c_string
    (CertGenAccessor.mk (stubClient (Except.ok ["ERROR", "bad service"]))) () ()
    "GENERATE_CSR" ["svc"] "bad service" (fun pem => Except.ok pem) rfl
  ⟨h.1, h.2.2.1 "svc" rfl, h.2.2.2.2 (by decide)⟩

/-- C3: when the transport replies with the one-field frame `["ERROR"]`,
`sendCommand` ends with a `std::runtime_error` carrying `"Unknown error"`; the
call does not run into an out-of-bounds access, neither the undefined behaviour
of `operator[]` nor the `std::out_of_range` of `at`. -/
theorem bare_error_reply_uses_fallback {σ : Type} (self : CertGenAccessor σ) (s s1 : σ)
    (command : String) (data : Payload)
    (h : self.m_requestClient.syncRequestWithReply s (command :: data)
          = (Except.ok ["ERROR"], s1)) :
    self.sendCommand s command data
        = (Outcome.thrown (Exn.runtime_error "Unknown error"), s1)
    ∧ (self.sendCommand s command data).1 ≠ Outcome.undefinedBehaviour
    ∧ ∀ w, (self.sendCommand s command data).1 ≠ Outcome.thrown (Exn.out_of_range w) := by
  have hs := sendCommand_of_sentinel_other self s s1 command data [] (by simp) h
  refine ⟨hs, ?_, ?_⟩
  · rw [hs]; simp
  · intro w; rw [hs]; simp

/-- Witness of C3: the reply `["ERROR"]` to a self-signed request. -/
theorem bare_error_reply_uses_fallback_witness :
    (CertGenAccessor.mk (stubClient (Except.ok ["ERROR"]))).sendCommand ()
        "GENERATE_SELFSIGNED_CERTIFICATE" ["service-1"]
      = (Outcome.thrown (Exn.runtime_error "Unknown error"), ()) :=
  (bare_error_reply_uses_fallback (CertGenAccessor.mk (stubClient (Except.ok ["ERROR"])))
    () () "GENERATE_SELFSIGNED_CERTIFICATE" ["service-1"] rfl).1

/-- C4, as stated, fails: for the three-field reply
`["ERROR", "bad service", "extra"]` the second field is present, yet the error
raised carries `"Unknown error"` and not `"bad service"`. -/
theorem long_error_reply_drops_message :
    (CertGenAccessor.mk (stubClient (Except.ok ["ERROR", "bad service", "extra"]))).sendCommand ()
        "GENERATE_CSR" ["svc"]
      = (Outcome.thrown (Exn.runtime_error "Unknown error"), ())
    ∧ (CertGenAccessor.mk (stubClient (Except.ok ["ERROR", "bad service", "extra"]))).sendCommand ()
        "GENERATE_CSR" ["svc"]
      ≠ (Outcome.thrown (Exn.runtime_error "bad service"), ()) := by
  constructor
  · rfl
  · decide

/-- C4, amended: for a reply whose first field is `"ERROR"`, `sendCommand` ends
with a `std::runtime_error` whose message is, when the reply has exactly two
fields, `reply[1]` as read through `what()` (up to its first NUL character, so
`reply[1]` itself when it has none), and `"Unknown error"` for every other
number of fields (one field, or three and more). -/
theorem error_message_by_reply_size {σ : Type} (self : CertGenAccessor σ) (s s1 : σ)
    (command : String) (data : Payload) (rest : Payload)
    (h : self.m_requestClient.syncRequestWithReply s (command :: data)
          = (Except.ok ("ERROR" :: rest), s1)) :
    (∀ m, rest = [m] →
        self.sendCommand s command data
          = (Outcome.thrown (Exn.runtime_error (c_str m)), s1))
    ∧ (∀ m, rest = [m] → '\x00' ∉ m.data →
        self.sendCommand s command data = (Outcome.thrown (Exn.runtime_error m), s1))
    ∧ (rest.length ≠ 1 →
        self.sendCommand s command data
          = (Outcome.thrown (Exn.runtime_error "Unknown error"), s1)) := by
  refine ⟨?_, ?_, ?_⟩
  · intro m hm
    subst hm
    exact sendCommand_of_sentinel_two self s s1 command data m h
  · intro m hm hnul
    subst hm
    rw [sendCommand_of_sentinel_two self s s1 command data m h, c_str_of_no_nul m hnul]
  · intro hlen
    exact sendCommand_of_sentinel_other self s s1 command data rest hlen h

/-- Witness of the amended C4 at a four-field error reply. -/
theorem error_message_by_reply_size_witness :
    (CertGenAccessor.mk (stubClient (Except.ok ["ERROR", "a", "b", "c"]))).sendCommand ()
        "IMPORT_CERTIFICATE" ["svc", "PEMDATA"]
      = (Outcome.thrown (Exn.runtime_error "Unknown error"), ()) :=
  (error_message_by_reply_size (CertGenAccessor.mk (stubClient (Except.ok ["ERROR", "a", "b", "c"])))
    () () "IMPORT_CERTIFICATE" ["svc", "PEMDATA"] ["a", "b", "c"] rfl).2.2 (by decide)

/-- C5 on the code: when the transport returns a frame with zero fields, the
accessor evaluates `recMessage[0]` on the empty vector.  No exception is raised
for the empty frame; `sendCommand` and each of the three operations end in the
undefined behaviour of the out-of-bounds read. -/
theorem empty_reply_is_indexed :
    (CertGenAccessor.mk (stubClient (Except.ok []))).sendCommand () GENERATE_CSR ["service-1"]
      = (Outcome.undefinedBehaviour, ())
    ∧ (CertGenAccessor.mk (stubClient (Except.ok []))).generateSelfCertificateReq () "service-1"
      = (Outcome.undefinedBehaviour, ())
    ∧ (CertGenAccessor.mk (stubClient (Except.ok []))).generateCsr
        (fun pem => (Except.ok pem : Except Exn String)) () "service-1"
      = (Outcome.undefinedBehaviour, ())
    ∧ (CertGenAccessor.mk (stubClient (Except.ok []))).importCertificate () "service-1" "PEMDATA"
      = (Outcome.undefinedBehaviour, ()) :=
  ⟨rfl, rfl, rfl, rfl⟩

/-- C6: for a non-empty reply `r0 :: rest` to its request,
`generateSelfCertificateReq` ends with a `std::runtime_error` if and only if
`r0 = "ERROR"`; when `r0` is anything else it returns, with no payload, whatever
`rest` is. -/
theorem self_signed_fails_iff_sentinel {σ : Type} (self : CertGenAccessor σ) (s s1 : σ)
    (serviceName : String) (r0 : String) (rest : Payload)
    (h : self.m_requestClient.syncRequestWithReply s
          [GENERATE_SELFSIGNED_CERTIFICATE, serviceName] = (Except.ok (r0 :: rest), s1)) :
    ((∃ m, self.generateSelfCertificateReq s serviceName
          = (Outcome.thrown (Exn.runtime_error m), s1)) ↔ r0 = "ERROR")
    ∧ (r0 ≠ "ERROR" →
        self.generateSelfCertificateReq s serviceName = (Outcome.value (), s1)) := by
  have hok : r0 ≠ "ERROR" →
      self.generateSelfCertificateReq s serviceName = (Outcome.value (), s1) := by
    intro hr0
    simp [CertGenAccessor.generateSelfCertificateReq,
      sendCommand_of_payload self s s1 _ _ r0 rest hr0 h]
  refine ⟨⟨?_, ?_⟩, hok⟩
  · rintro ⟨m, hm⟩
    by_contra hr0
    rw [hok hr0] at hm
    simp at hm
  · intro hr0
    subst hr0
    obtain ⟨m, hm⟩ := sendCommand_of_sentinel self s s1 _ _ rest h
    exact ⟨m, by simp [CertGenAccessor.generateSelfCertificateReq, hm]⟩

/-- Witness of C6: a reply `["OK", "ignored"]` to the request for `service-1`. -/
theorem self_signed_fails_iff_sentinel_witness :
    (CertGenAccessor.mk (stubClient (Except.ok ["OK", "ignored"]))).generateSelfCertificateReq ()
        "service-1" = (Outcome.value (), ()) :=
  (self_signed_fails_iff_sentinel (CertGenAccessor.mk (stubClient (Except.ok ["OK", "ignored"])))
    () () "service-1" "OK" ["ignored"] rfl).2 (by decide)

/-- C7: for a non-empty reply `r0 :: rest` with `r0 ≠ "ERROR"`, `generateCsr`
raises no error of its own and returns what the constructor `CsrX509` makes of
exactly `r0`: the constructed value when the constructor returns one (and the
constructor's own exception when it throws).  `rest` has no influence. -/
theorem generateCsr_builds_from_first_field {σ γ : Type} (self : CertGenAccessor σ)
    (CsrX509 : String → Except Exn γ) (s s1 : σ) (serviceName : String)
    (r0 : String) (rest : Payload) (hr0 : r0 ≠ "ERROR")
    (h : self.m_requestClient.syncRequestWithReply s [GENERATE_CSR, serviceName]
          = (Except.ok (r0 :: rest), s1)) :
    (∀ csr, CsrX509 r0 = Except.ok csr →
        self.generateCsr CsrX509 s serviceName = (Outcome.value csr, s1))
    ∧ (∀ e, CsrX509 r0 = Except.error e →
        self.generateCsr CsrX509 s serviceName = (Outcome.thrown e, s1)) := by
  have hs := sendCommand_of_payload self s s1 _ _ r0 rest hr0 h
  constructor
  · intro csr hc
    simp [CertGenAccessor.generateCsr, hs, vectorIndex, hc]
  · intro e hc
    simp [CertGenAccessor.generateCsr, hs, vectorIndex, hc]

/-- Witness of C7: the reply `["SOME_VALUE", "x", "y"]`, with a constructor that
keeps the PEM text. -/
theorem generateCsr_builds_from_first_field_witness :
    (CertGenAccessor.mk (stubClient (Except.ok ["SOME_VALUE", "x", "y"]))).generateCsr
        (fun pem => (Except.ok pem : Except Exn String)) () "service-1"
      = (Outcome.value "SOME_VALUE", ()) :=
  (generateCsr_builds_from_first_field
    (CertGenAccessor.mk (stubClient (Except.ok ["SOME_VALUE", "x", "y"])))
    (fun pem => (Except.ok pem : Except Exn String)) () () "service-1"
    "SOME_VALUE" ["x", "y"] (by decide) rfl).1 "SOME_VALUE" rfl

/-- C9, as stated, fails: a transport that throws `std::runtime_error` with the
text `"Unknown error"` and a transport that replies `["ERROR"]` make
`sendCommand` end in the very same way, so the caller cannot tell the transport
failure from the remote-reported error. -/
theorem transport_failure_can_equal_remote_error :
    (CertGenAccessor.mk (stubClient (Except.error (Exn.runtime_error "Unknown error")))).sendCommand
        () GENERATE_CSR ["service-1"]
      = (CertGenAccessor.mk (stubClient (Except.ok ["ERROR"]))).sendCommand
        () GENERATE_CSR ["service-1"] := by
  rfl

/-- C9, amended: when `syncRequestWithReply` throws `f`, `sendCommand` and each
of the three operations end with exactly `f`.  A reply whose first field is
`"ERROR"` always ends in a `std::runtime_error`; so the two ways of failing
differ whenever `f` is not itself a `std::runtime_error`. -/
theorem transport_failure_propagates {σ γ : Type} (self : CertGenAccessor σ) (s s1 : σ)
    (command : String) (data : Payload) (f : Exn) (CsrX509 : String → Except Exn γ)
    (h : self.m_requestClient.syncRequestWithReply s (command :: data)
          = (Except.error f, s1)) :
    self.sendCommand s command data = (Outcome.thrown f, s1)
    ∧ (∀ name, command :: data = [GENERATE_SELFSIGNED_CERTIFICATE, name] →
        self.generateSelfCertificateReq s name = (Outcome.thrown f, s1))
    ∧ (∀ name, command :: data = [GENERATE_CSR, name] →
        self.generateCsr CsrX509 s name = (Outcome.thrown f, s1))
    ∧ (∀ name cert, command :: data = [IMPORT_CERTIFICATE, name, cert] →
        self.importCertificate s name cert = (Outcome.thrown f, s1))
    ∧ (∀ (other : CertGenAccessor σ) (t t1 : σ) (command2 : String) (data2 rest : Payload),
        other.m_requestClient.syncRequestWithReply t (command2 :: data2)
          = (Except.ok ("ERROR" :: rest), t1) →
        (∃ m, (other.sendCommand t command2 data2).1 = Outcome.thrown (Exn.runtime_error m))
        ∧ ((∀ w, f ≠ Exn.runtime_error w) →
            (other.sendCommand t command2 data2).1 ≠ (self.sendCommand s command data).1)) := by
  have hs := sendCommand_of_throw self s s1 command data f h
  refine ⟨hs, ?_, ?_, ?_, ?_⟩
  · intro name hf
    rw [hf] at h
    simp [CertGenAccessor.generateSelfCertificateReq, sendCommand_of_throw self s s1 _ _ f h]
  · intro name hf
    rw [hf] at h
    simp [CertGenAccessor.generateCsr, sendCommand_of_throw self s s1 _ _ f h]
  · intro name cert hf
    rw [hf] at h
    simp [CertGenAccessor.importCertificate, sendCommand_of_throw self s s1 _ _ f h]
  · intro other t t1 command2 data2 rest h2
    obtain ⟨m, hm⟩ := sendCommand_of_sentinel other t t1 command2 data2 rest h2
    refine ⟨⟨m, by rw [hm]⟩, ?_⟩
    intro hf heq
    rw [hm, hs] at heq
    simp at heq
    exact hf m heq.symm

/-- Witness of the amended C9: a transport that throws an exception of its own
class. -/
theorem transport_failure_propagates_witness :
    (CertGenAccessor.mk (stubClient (Except.error (Exn.other "MlmTimeout" "no reply")))).importCertificate
        () "svc" "PEMDATA"
      = (Outcome.thrown (Exn.other "MlmTimeout" "no reply"), ()) :=
  (transport_failure_propagates
    (CertGenAccessor.mk (stubClient (Except.error (Exn.other "MlmTimeout" "no reply"))))
    () () "IMPORT_CERTIFICATE" ["svc", "PEMDATA"] (Exn.other "MlmTimeout" "no reply")
    (fun pem => (Except.ok pem : Except Exn String)) rfl).2.2.2.1 "svc" "PEMDATA" rfl

end certgen
